import Mathlib

/-!
Shallow embedding of the core request/response pipeline of the
`rust-orb-billing` client library (MaterializeInc/rust-orb-billing):
request construction (`src/client.rs`), client configuration and retry
strategy (`src/config.rs`), the error taxonomy (`src/error.rs`), and the
cursor-paginated streaming engine together with the tombstone-filtering
list operations (`src/client/customers.rs`, `src/client/subscriptions.rs`).

External collaborators (the `reqwest` transport, `serde` decoding, and the
`reqwest_retry` middleware) are modelled as explicit parameters or as small
state machines reflecting the behaviour the source relies on.  Leaf DTO
payload types (addresses, tax IDs, enumerated strings, RFC 3339 timestamps)
are modelled as plain strings; none of the verified code inspects them.
-/

namespace Orb

/-! ## URLs and request builders (model of `reqwest::Url` / `RequestBuilder`) -/

/-- Model of `reqwest::Url`.  `cannot_be_a_base` is true for non-hierarchical
URLs such as `mailto:` URLs, for which `Url::path_segments_mut` fails. -/
structure Url where
  cannot_be_a_base : Bool
  segments : List String
deriving Repr, DecidableEq

/-- Model of `Url::path_segments_mut(..).extend(path)`: appending path
segments, which fails (returns `none`, modelling the `Err` from
`path_segments_mut`) exactly when the URL cannot be a base. -/
def Url.extendSegments (u : Url) (path : List String) : Option Url :=
  if u.cannot_be_a_base then none
  else some { u with segments := u.segments ++ path }

/-- Model of `reqwest_middleware::RequestBuilder`: the pieces of request
state the verified pipeline manipulates. -/
structure RequestBuilder where
  method : String
  url : Url
  queryPairs : List (String × String)
  bearer_token : Option String
deriving Repr, DecidableEq

/-- Model of `RequestBuilder::query`: appends query pairs (reqwest appends,
it does not replace). -/
def RequestBuilder.query (r : RequestBuilder) (pairs : List (String × String)) :
    RequestBuilder :=
  { r with queryPairs := r.queryPairs ++ pairs }

/-! ## Errors (`src/error.rs`, plus the variant constructed in `src/client/`) -/

/-- `ApiError` from `src/error.rs`: an error returned by the Orb API. -/
structure ApiError where
  status_code : Nat
  title : String
  detail : Option String
  validation_errors : List String
deriving Repr, DecidableEq

/-- Model of `reqwest::Error`: either a network-level request failure
(connect, timeout, DNS) or a body-decode failure (as produced by
`Response::json`). -/
inductive ReqwestError where
  | request (detail : String)
  | decode (detail : String)
deriving Repr, DecidableEq

/-- `Error` as used by the client code.  `src/error.rs` declares the
`Transport` and `Api` variants; the list operations in
`src/client/customers.rs` and `src/client/subscriptions.rs` additionally
construct `Error::UnexpectedResponse`, so the variant is included here to
embed those functions. -/
inductive Error where
  | Transport (e : ReqwestError)
  | Api (e : ApiError)
  | UnexpectedResponse (detail : String)
deriving Repr, DecidableEq

/-- True for the two error kinds declared in `src/error.rs`. -/
def Error.isTransportOrApi : Error → Bool
  | .Transport _ => true
  | .Api _ => true
  | .UnexpectedResponse _ => false

/-! ## Client configuration (`src/config.rs`) -/

/-- Model of `reqwest_retry::policies::ExponentialBackoff`: the retry bounds
(milliseconds) and the maximum number of retries. -/
structure ExponentialBackoff where
  min_retry_interval : Nat
  max_retry_interval : Nat
  max_n_retries : Nat
deriving Repr, DecidableEq

/-- Model of `reqwest_middleware::ClientWithMiddleware`: the underlying
transport together with the optionally installed retry middleware
(`RetryTransientMiddleware` with the `Retry429` strategy). -/
structure ClientWithMiddleware where
  retry_middleware : Option ExponentialBackoff
deriving Repr, DecidableEq

/-- `ClientConfig` from `src/config.rs`. -/
structure ClientConfig where
  api_key : String
deriving Repr, DecidableEq

/-- `Client` from `src/client.rs`. -/
structure Client where
  inner : ClientWithMiddleware
  api_key : String
  endpoint : Url
deriving Repr, DecidableEq

/-- `DEFAULT_ENDPOINT` from `src/config.rs`:
`https://api.billwithorb.com/v1`, a hierarchical URL. -/
def DEFAULT_ENDPOINT : Url :=
  { cannot_be_a_base := false, segments := ["v1"] }

/-- `ClientBuilder` from `src/config.rs`. -/
structure ClientBuilder where
  endpoint : Url
  retry_policy : Option ExponentialBackoff
deriving Repr, DecidableEq

/-- `impl Default for ClientBuilder` (`src/config.rs`): the default endpoint
and an exponential-backoff retry policy with bounds 1s–5s and at most 5
retries. -/
def ClientBuilder.default : ClientBuilder :=
  { endpoint := DEFAULT_ENDPOINT,
    retry_policy := some
      { min_retry_interval := 1000, max_retry_interval := 5000, max_n_retries := 5 } }

/-- `ClientBuilder::with_retry_policy`. -/
def ClientBuilder.with_retry_policy (b : ClientBuilder) (policy : ExponentialBackoff) :
    ClientBuilder :=
  { b with retry_policy := some policy }

/-- `ClientBuilder::with_endpoint`: stores the endpoint; performs no
validation. -/
def ClientBuilder.with_endpoint (b : ClientBuilder) (endpoint : Url) : ClientBuilder :=
  { b with endpoint := endpoint }

/-- `ClientBuilder::build`: installs the retry middleware exactly when a
retry policy is present, and stores the API key and endpoint (again with no
validation of the endpoint). -/
def ClientBuilder.build (b : ClientBuilder) (config : ClientConfig) : Client :=
  { inner := { retry_middleware := b.retry_policy },
    api_key := config.api_key,
    endpoint := b.endpoint }

/-- `Client::new`: `ClientBuilder::default().build(config)`. -/
def Client.new (config : ClientConfig) : Client :=
  ClientBuilder.default.build config

/-- `Client::build_request` (`src/client.rs`): clones the endpoint, appends
the path segments via `path_segments_mut` — whose failure is an unhandled
`expect`, modelled as `none` — and attaches bearer authentication. -/
def Client.build_request (c : Client) (method : String) (path : List String) :
    Option RequestBuilder :=
  match c.endpoint.extendSegments path with
  | none => none
  | some url =>
    some { method := method, url := url, queryPairs := [], bearer_token := some c.api_key }

/-! ## Retry strategy (`src/config.rs`) and middleware execution -/

/-- `reqwest_retry::Retryable`. -/
inductive Retryable where
  | Transient
  | Fatal
deriving Repr, DecidableEq

/-- Model of `reqwest::Response` as observed by the pipeline: status code,
headers, and the body text. -/
structure Response where
  status : Nat
  headers : List (String × String)
  body : String
deriving Repr, DecidableEq

/-- `Retry429::handle` (`src/config.rs`): a successful exchange with status
429 is `Transient`; any other successful exchange is not retried; transport
failures are delegated to `reqwest_retry::default_on_request_failure`,
passed here as the parameter `d`. -/
def Retry429.handle (d : ReqwestError → Option Retryable)
    (res : Except ReqwestError Response) : Option Retryable :=
  match res with
  | .ok success => if success.status = 429 then some .Transient else none
  | .error error => d error

/-- Modelled from the spec: `reqwest_retry::default_on_request_failure`
(external crate, not under `src/`) marks network-level transport failures —
connection reset, timeout, DNS failure — as transient, and other request
errors as fatal. -/
def default_on_request_failure : ReqwestError → Option Retryable
  | .request _ => some .Transient
  | .decode _ => some .Fatal

/-- Modelled from the spec: the execution loop of
`reqwest_retry::RetryTransientMiddleware` (external crate).  `attempts n`
is the outcome of the `n`-th attempt; the loop retries while the strategy
classifies the outcome as `Transient` and retries remain, and returns the
final outcome together with the number of attempts performed. -/
def runRetries {ε : Type} (strategy : Except ε Response → Option Retryable)
    (attempts : Nat → Except ε Response) (n : Nat) :
    Nat → Except ε Response × Nat
  | 0 => (attempts n, 1)
  | allowed + 1 =>
    match strategy (attempts n) with
    | some .Transient =>
      let rest := runRetries strategy attempts (n + 1) allowed
      (rest.1, rest.2 + 1)
    | _ => (attempts n, 1)

/-- One logical request through a built client: if the retry middleware is
installed, attempts are driven by the `Retry429` strategy with the policy's
retry budget; otherwise exactly one attempt is made. -/
def Client.execute (d : ReqwestError → Option Retryable) (c : Client)
    (attempts : Nat → Except ReqwestError Response) :
    Except ReqwestError Response × Nat :=
  match c.inner.retry_middleware with
  | none => (attempts 0, 1)
  | some policy => runRetries (Retry429.handle d) attempts 0 policy.max_n_retries

/-! ## Response decoding (`Client::send_request`, `src/client.rs`) -/

/-- The locally declared `ErrorResponse` shape inside `Client::send_request`. -/
structure ErrorResponse where
  title : String
  detail : Option String
  validation_errors : List String
deriving Repr, DecidableEq

/-- `reqwest::StatusCode::is_success`. -/
def StatusCode.is_success (s : Nat) : Bool :=
  200 ≤ s && s < 300

/-- `Client::send_request` (`src/client.rs`).  `decodeBody` models
`Response::json::<T>` on the success path (its failure is a
`reqwest::Error` decode failure propagated by `?` into
`Error::Transport`); `decodeErrorResponse` models
`serde_json::from_str::<ErrorResponse>` on the failure path; `sendResult`
is the outcome of `req.send().await` after the middleware.  The raw body of
an undecodable error response is only written to a diagnostic log
(`eprintln!`), which a pure model omits; it does not flow into the returned
error value. -/
def Client.send_request {T : Type} (decodeBody : String → Option T)
    (decodeErrorResponse : String → Option ErrorResponse)
    (sendResult : Except ReqwestError Response) : Except Error T :=
  match sendResult with
  | .error e => .error (.Transport e)
  | .ok res =>
    let status_code := res.status
    if StatusCode.is_success status_code then
      match decodeBody res.body with
      | some v => .ok v
      | none => .error (.Transport (.decode res.body))
    else
      let res_body := res.body
      match decodeErrorResponse res_body with
      | some e =>
        .error (.Api { status_code := status_code, title := e.title,
                       detail := e.detail, validation_errors := e.validation_errors })
      | none =>
        .error (.Api { status_code := status_code, title := "decoding failure",
                       detail := some "unable to decode API response as JSON",
                       validation_errors := [] })

/-! ## Pagination engine (`Client::stream_paginated_request`, `src/client.rs`) -/

/-- `ListParams` from `src/config.rs`. -/
structure ListParams where
  page_size : Nat
deriving Repr, DecidableEq

/-- `ListParams::DEFAULT`. -/
def ListParams.DEFAULT : ListParams := { page_size := 20 }

/-- The locally declared `PaginationMetadata` shape inside
`Client::stream_paginated_request`. -/
structure PaginationMetadata where
  next_cursor : Option String
deriving Repr, DecidableEq

/-- The locally declared `Paginated<T>` envelope inside
`Client::stream_paginated_request`. -/
structure Paginated (T : Type) where
  data : List T
  pagination_metadata : PaginationMetadata
deriving Repr, DecidableEq

/-- The request actually sent for one page: the cloned base request, with
the cursor attached as a query parameter exactly when a cursor is present
(`if let Some(cursor) = cursor { current_req.query(&[("cursor", cursor)]) }`). -/
def currentRequest (req : RequestBuilder) : Option String → RequestBuilder
  | none => req
  | some cursor => req.query [("cursor", cursor)]

/-- The loop body of the `try_stream!` block in
`Client::stream_paginated_request`, run to completion: `fetch` models
`send_request` applied to the current request (the transport and decoding
pipeline), `cursor` is the loop's cursor state, and `fuel` bounds the
number of iterations (the Rust loop runs unboundedly; every theorem
supplies enough fuel).  Returns the full list of yielded items — an error
is yielded terminally, as `?` inside `try_stream!` ends the stream — and
the list of page requests issued, in order. -/
def streamPaginatedGo {T : Type} (fetch : RequestBuilder → Except Error (Paginated T))
    (req : RequestBuilder) : Nat → Option String →
    List (Except Error T) × List RequestBuilder
  | 0, _ => ([], [])
  | fuel + 1, cursor =>
    let current_req := currentRequest req cursor
    match fetch current_req with
    | .error e => ([.error e], [current_req])
    | .ok res =>
      match res.pagination_metadata.next_cursor with
      | none => (res.data.map .ok, [current_req])
      | some next_cursor =>
        let rest := streamPaginatedGo fetch req fuel (some next_cursor)
        (res.data.map .ok ++ rest.1, current_req :: rest.2)

/-- `Client::stream_paginated_request` (`src/client.rs`), run to
completion: attaches the page-size (`limit`) query parameter once, before
the first fetch, then enters the loop with an absent cursor. -/
def stream_paginated_request {T : Type}
    (fetch : RequestBuilder → Except Error (Paginated T))
    (params : ListParams) (req : RequestBuilder) (fuel : Nat) :
    List (Except Error T) × List RequestBuilder :=
  let req := req.query [("limit", toString params.page_size)]
  streamPaginatedGo fetch req fuel none

/-! ## Concrete servers used to exercise the pagination engine -/

/-- The cursor string this test server issues for page `i`: `i` copies of
the character `c` (an opaque token whose page index is its length). -/
def pageCursor (i : Nat) : String :=
  String.mk (List.replicate i 'c')

/-- The page index a server reads off a request: the length of the `cursor`
query parameter, or `0` when no cursor was sent. -/
def cursorIndex (req : RequestBuilder) : Nat :=
  match req.queryPairs.lookup "cursor" with
  | none => 0
  | some s => s.length

/-- A well-behaved server holding `items`, serving them in pages of size
`P`: page `i` holds `items[P*i ..< P*i+P]`, and `next_cursor` is present
exactly while items remain. -/
def canonicalServer {T : Type} (items : List T) (P : Nat) (req : RequestBuilder) :
    Except Error (Paginated T) :=
  let i := cursorIndex req
  .ok { data := (items.drop (P * i)).take P,
        pagination_metadata :=
          { next_cursor :=
              if P * (i + 1) < items.length then some (pageCursor (i + 1)) else none } }

/-- A server that serves the given pages — each with a `next_cursor`
pointing at the following fetch — and fails the fetch after the last page
with the error `e`. -/
def failingServer {T : Type} (pages : List (List T)) (e : Error) (req : RequestBuilder) :
    Except Error (Paginated T) :=
  let i := cursorIndex req
  match pages[i]? with
  | some page =>
    .ok { data := page,
          pagination_metadata := { next_cursor := some (pageCursor (i + 1)) } }
  | none => .error e

/-! ## Customers (`src/client/customers.rs`) -/

/-- `CUSTOMERS_PATH`. -/
def CUSTOMERS_PATH : List String := ["customers"]

/-- An Orb customer (`Customer` in `src/client/customers.rs`).  Leaf DTO
payloads (addresses, tax IDs, enumerated strings, currency codes, RFC 3339
timestamps) are modelled as plain strings; no verified code inspects them. -/
structure Customer where
  id : String
  external_id : Option String
  name : String
  email : String
  additional_emails : List String
  timezone : String
  payment_provider_id : Option String
  payment_provider : Option String
  shipping_address : Option String
  billing_address : Option String
  currency : Option String
  tax_id : Option String
  auto_collection : Bool
  balance : String
  created_at : String
  portal_url : Option String
deriving Repr, DecidableEq

/-- `CustomerResponse` (`src/client/customers.rs`): the untagged union of a
normal customer record and the deleted-tombstone shape
`{ id, deleted }`. -/
inductive CustomerResponse where
  | Normal (c : Customer)
  | Deleted (id : String) (deleted : Bool)
deriving Repr, DecidableEq

/-- The closure passed to `try_filter_map` in `Client::list_customers`:
normal records are yielded, tombstones with `deleted: true` are dropped,
and a tombstone with `deleted: false` is an `Error::UnexpectedResponse`. -/
def customersFilterStep : CustomerResponse → Except Error (Option Customer)
  | .Normal c => .ok (some c)
  | .Deleted _ true => .ok none
  | .Deleted id false =>
    .error (.UnexpectedResponse
      ("customer " ++ id ++ " used deleted response shape but deleted field was `false`"))

/-- `futures_util::TryStreamExt::try_filter_map` over the materialised
stream: underlying errors pass through; for `Ok` elements, `f` either
yields a value, skips the element, or yields an error. -/
def tryFilterMap {α β : Type} (f : α → Except Error (Option β)) :
    List (Except Error α) → List (Except Error β)
  | [] => []
  | .error e :: rest => .error e :: tryFilterMap f rest
  | .ok a :: rest =>
    match f a with
    | .ok none => tryFilterMap f rest
    | .ok (some b) => .ok b :: tryFilterMap f rest
    | .error e => .error e :: tryFilterMap f rest

/-- `Client::list_customers` (`src/client/customers.rs`), run to
completion: builds a GET request for `CUSTOMERS_PATH` (whose `expect` panic
on a non-base endpoint is modelled as `none`), streams the paginated
`CustomerResponse` elements, and filters them through
`customersFilterStep`. -/
def Client.list_customers (c : Client) (params : ListParams)
    (fetch : RequestBuilder → Except Error (Paginated CustomerResponse)) (fuel : Nat) :
    Option (List (Except Error Customer)) :=
  match c.build_request "GET" CUSTOMERS_PATH with
  | none => none
  | some req =>
    some (tryFilterMap customersFilterStep (stream_paginated_request fetch params req fuel).1)

/-! ## Subscriptions (`src/client/subscriptions.rs`) -/

/-- `SUBSCRIPTIONS_PATH`. -/
def SUBSCRIPTIONS_PATH : List String := ["subscriptions"]

/-- An Orb subscription (`Subscription<C>` in `src/client/subscriptions.rs`),
generic in the customer payload exactly as in the source.  Leaf DTO
payloads (the plan, fixed-fee entries, status, RFC 3339 timestamps) are
modelled as plain strings. -/
structure Subscription (C : Type) where
  id : String
  customer : C
  plan : String
  start_date : String
  end_date : Option String
  status : Option String
  current_billing_period_start_date : Option String
  current_billing_period_end_date : Option String
  active_plan_phase_order : Option Int
  fixed_fee_quantity_schedule : List String
  net_terms : Int
  auto_collection : Bool
  default_invoice_memo : Option String
  created_at : String
deriving Repr, DecidableEq

/-- The closure passed to `try_filter_map` in `Client::list_subscriptions`:
a subscription whose customer is a normal record is rebuilt field-by-field
with the unwrapped customer; a subscription whose customer is a
`deleted: true` tombstone is dropped; a `deleted: false` tombstone is an
`Error::UnexpectedResponse`. -/
def subscriptionsFilterStep (subscription : Subscription CustomerResponse) :
    Except Error (Option (Subscription Customer)) :=
  match subscription.customer with
  | .Normal customer =>
    .ok (some
      { id := subscription.id,
        customer := customer,
        plan := subscription.plan,
        start_date := subscription.start_date,
        end_date := subscription.end_date,
        status := subscription.status,
        current_billing_period_start_date := subscription.current_billing_period_start_date,
        current_billing_period_end_date := subscription.current_billing_period_end_date,
        active_plan_phase_order := subscription.active_plan_phase_order,
        fixed_fee_quantity_schedule := subscription.fixed_fee_quantity_schedule,
        net_terms := subscription.net_terms,
        auto_collection := subscription.auto_collection,
        default_invoice_memo := subscription.default_invoice_memo,
        created_at := subscription.created_at })
  | .Deleted _ true => .ok none
  | .Deleted id false =>
    .error (.UnexpectedResponse
      ("customer " ++ id ++ " used deleted response shape but deleted field was `false`"))

/-- `Client::list_subscriptions` (`src/client/subscriptions.rs`), run to
completion, for a listing with no customer filter. -/
def Client.list_subscriptions (c : Client) (params : ListParams)
    (fetch : RequestBuilder → Except Error (Paginated (Subscription CustomerResponse)))
    (fuel : Nat) : Option (List (Except Error (Subscription Customer))) :=
  match c.build_request "GET" SUBSCRIPTIONS_PATH with
  | none => none
  | some req =>
    some (tryFilterMap subscriptionsFilterStep (stream_paginated_request fetch params req fuel).1)

/-! ## Concrete fixtures used by the theorems below -/

/-- Model of `Url::parse("mailto:orb@example.com")`: a syntactically valid
URL that cannot be a base. -/
def mailtoEndpoint : Url :=
  { cannot_be_a_base := true, segments := [] }

/-- The `k`-th request a pagination run issues against one of the servers
above: the base request with the `limit` parameter, plus the cursor for
page `k` on every fetch after the first. -/
def pageRequest (base : RequestBuilder) : Nat → RequestBuilder
  | 0 => base
  | k + 1 => base.query [("cursor", pageCursor (k + 1))]

/-- The loop's cursor state on entry to page `k`: absent for the first
page, the server-issued cursor afterwards. -/
def pageCursorOpt : Nat → Option String
  | 0 => none
  | k + 1 => some (pageCursor (k + 1))

/-- A concrete customer record. -/
def testCustomer : Customer :=
  { id := "cus_1", external_id := none, name := "Ada", email := "ada@example.com",
    additional_emails := [], timezone := "Etc/UTC", payment_provider_id := none,
    payment_provider := none, shipping_address := none, billing_address := none,
    currency := none, tax_id := none, auto_collection := false, balance := "0",
    created_at := "2024-01-01T00:00:00Z", portal_url := none }

/-- A concrete subscription record whose customer is a deleted tombstone. -/
def testTombstoneSubscription : Subscription CustomerResponse :=
  { id := "sub_1", customer := .Deleted "cus_2" true, plan := "plan_1",
    start_date := "2024-01-01T00:00:00Z", end_date := none, status := some "active",
    current_billing_period_start_date := none, current_billing_period_end_date := none,
    active_plan_phase_order := none, fixed_fee_quantity_schedule := [],
    net_terms := 0, auto_collection := false, default_invoice_memo := none,
    created_at := "2024-01-01T00:00:00Z" }

/-- A concrete base request, as produced by `Client::build_request` on the
default client for the customers listing. -/
def testBaseRequest : RequestBuilder :=
  { method := "GET", url := { cannot_be_a_base := false, segments := ["v1", "customers"] },
    queryPairs := [], bearer_token := some "orb-key" }

/-! ## Shared helper lemmas -/

theorem lookup_append_none {β : Type} (a : String) (l₁ l₂ : List (String × β))
    (h : l₁.lookup a = none) : (l₁ ++ l₂).lookup a = l₂.lookup a := by
  induction l₁ with
  | nil => simp
  | cons p t ih =>
    rw [List.cons_append]
    match p with
    | (k, v) =>
      by_cases hk : (a == k) = true
      · simp [List.lookup, hk] at h
      · simp only [List.lookup, hk] at h ⊢
        exact ih h

theorem length_pageCursor (i : Nat) : (pageCursor i).length = i := by
  simp [pageCursor, String.length]

theorem lookup_cursor_limit (req₀ : RequestBuilder) (s : String)
    (hcur : req₀.queryPairs.lookup "cursor" = none) :
    (req₀.query [("limit", s)]).queryPairs.lookup "cursor" = none := by
  show (req₀.queryPairs ++ [("limit", s)]).lookup "cursor" = none
  rw [lookup_append_none _ _ _ hcur]
  simp [List.lookup]

theorem cursorIndex_pageRequest (req₀ : RequestBuilder) (s : String) (i : Nat)
    (hcur : req₀.queryPairs.lookup "cursor" = none) :
    cursorIndex (pageRequest (req₀.query [("limit", s)]) i) = i := by
  match i with
  | 0 =>
    simp only [pageRequest, cursorIndex, lookup_cursor_limit req₀ s hcur]
  | k + 1 =>
    show cursorIndex ((req₀.query [("limit", s)]).query [("cursor", pageCursor (k + 1))]) = k + 1
    have h1 : ((req₀.query [("limit", s)]).query [("cursor", pageCursor (k + 1))]).queryPairs.lookup "cursor"
        = some (pageCursor (k + 1)) := by
      show ((req₀.query [("limit", s)]).queryPairs ++ [("cursor", pageCursor (k + 1))]).lookup "cursor"
        = some (pageCursor (k + 1))
      rw [lookup_append_none _ _ _ (lookup_cursor_limit req₀ s hcur)]
      simp [List.lookup]
    simp only [cursorIndex, h1, length_pageCursor]

theorem currentRequest_pageCursorOpt (base : RequestBuilder) (i : Nat) :
    currentRequest base (pageCursorOpt i) = pageRequest base i := by
  match i with
  | 0 => rfl
  | k + 1 => rfl

theorem numPages_pos (P N i : Nat) (hP : 0 < P) (hi : P * i < N) :
    i + 1 ≤ (N + P - 1) / P := by
  rw [Nat.le_div_iff_mul_le hP]
  have hs : (i + 1) * P = P * i + P := by rw [Nat.mul_comm, Nat.mul_succ]
  omega

theorem numPages_last (P N i : Nat) (hP : 0 < P) (hi : P * i < N)
    (hlast : N ≤ P * (i + 1)) : (N + P - 1) / P = i + 1 := by
  apply Nat.div_eq_of_lt_le
  · have hs : (i + 1) * P = P * i + P := by rw [Nat.mul_comm, Nat.mul_succ]
    omega
  · have hs : P * (i + 1) = P * i + P := Nat.mul_succ P i
    have hs2 : (i + 1 + 1) * P = P * i + P + P := by
      rw [Nat.mul_comm, Nat.mul_succ, Nat.mul_succ]
    omega

/-! ## Claim theorems -/

/-- C2: the `Retry429` strategy classifies an attempt outcome as transient
(retried) exactly when it is a transport failure that
`default_on_request_failure` deems transient (the conventional retryable
network-level set, passed as `d`) or a completed exchange with HTTP status
exactly 429 — the latter regardless of any `Retry-After` header, since the
strategy never reads headers; every completed exchange with any other
status is classified `None` (returned to the caller without retry). -/
theorem retry429_transient_iff (d : ReqwestError → Option Retryable)
    (r : Except ReqwestError Response) :
    (Retry429.handle d r = some .Transient ↔
      (∃ e, r = .error e ∧ d e = some .Transient) ∨
      (∃ resp, r = .ok resp ∧ resp.status = 429))
    ∧ (∀ resp : Response, resp.status ≠ 429 → Retry429.handle d (.ok resp) = none) := by
  constructor
  · match r with
    | .ok resp =>
      by_cases h429 : resp.status = 429
      · simp [Retry429.handle, h429]
      · simp [Retry429.handle, h429]
    | .error e =>
      simp [Retry429.handle]
  · intro resp h429
    simp [Retry429.handle, h429]

/-- Witness for `retry429_transient_iff`: a 429 response is transient even
with a `Retry-After` header present, and a 500 response is not retried. -/
theorem retry429_transient_iff_witness :
    Retry429.handle default_on_request_failure
        (.ok { status := 429, headers := [("Retry-After", "30")], body := "" })
      = some .Transient
    ∧ Retry429.handle default_on_request_failure
        (.ok { status := 500, headers := [], body := "" })
      = none := by
  constructor
  · exact (retry429_transient_iff default_on_request_failure _).1.mpr
      (Or.inr ⟨_, rfl, rfl⟩)
  · exact (retry429_transient_iff default_on_request_failure
      (.ok { status := 500, headers := [], body := "" })).2 _ (by decide)

/-- C3: a completed exchange with a non-2xx status whose body does not
decode as the structured error shape yields an `Error::Api` value — never a
panic or a raw parse error — whose status code equals the response's
status, whose title is the fixed string `"decoding failure"`, whose detail
is the fixed string `"unable to decode API response as JSON"`, and whose
validation-error list is empty; the raw body does not occur in the returned
value (it is only written to the diagnostic log, which the pure model
omits). -/
theorem send_request_error_fallback {T : Type} (decodeBody : String → Option T)
    (decodeErrorResponse : String → Option ErrorResponse) (res : Response)
    (hstatus : StatusCode.is_success res.status = false)
    (hdecode : decodeErrorResponse res.body = none) :
    Client.send_request decodeBody decodeErrorResponse (.ok res)
      = .error (.Api { status_code := res.status, title := "decoding failure",
                       detail := some "unable to decode API response as JSON",
                       validation_errors := [] }) := by
  simp [Client.send_request, hstatus, hdecode]

/-- Witness for `send_request_error_fallback`: a 500 response with an HTML
body and decoders that reject it. -/
theorem send_request_error_fallback_witness :
    Client.send_request (fun _ => (none : Option Nat)) (fun _ => none)
        (.ok { status := 500, headers := [], body := "<html>oops</html>" })
      = .error (.Api { status_code := 500, title := "decoding failure",
                       detail := some "unable to decode API response as JSON",
                       validation_errors := [] }) :=
  send_request_error_fallback (fun _ => (none : Option Nat)) (fun _ => none)
    { status := 500, headers := [], body := "<html>oops</html>" } (by decide) rfl

/-- C9: on a completed exchange with a 2xx status, a body that fails to
decode as the caller-specified type yields `Error::Transport` (the decode
failure from `Response::json` — not an API error and not a defaulted
success), and a body that decodes yields that decoded value as success. -/
theorem send_request_success_decoding {T : Type} (decodeBody : String → Option T)
    (decodeErrorResponse : String → Option ErrorResponse) (res : Response)
    (hstatus : StatusCode.is_success res.status = true) :
    (decodeBody res.body = none →
      Client.send_request decodeBody decodeErrorResponse (.ok res)
        = .error (.Transport (.decode res.body)))
    ∧ (∀ v : T, decodeBody res.body = some v →
      Client.send_request decodeBody decodeErrorResponse (.ok res) = .ok v) := by
  constructor
  · intro hdec
    simp [Client.send_request, hstatus, hdec]
  · intro v hdec
    simp [Client.send_request, hstatus, hdec]

/-- Witness for `send_request_success_decoding`: a 200 response whose body
the caller's decoder rejects becomes a transport error, and one it accepts
becomes that value. -/
theorem send_request_success_decoding_witness :
    Client.send_request (fun _ => (none : Option Nat)) (fun _ => none)
        (.ok { status := 200, headers := [], body := "not json" })
      = .error (.Transport (.decode "not json"))
    ∧ Client.send_request (fun b => if b = "7" then some 7 else none) (fun _ => none)
        (.ok { status := 200, headers := [], body := "7" })
      = .ok 7 := by
  constructor
  · exact (send_request_success_decoding (fun _ => (none : Option Nat)) (fun _ => none)
      { status := 200, headers := [], body := "not json" } (by decide)).1 rfl
  · exact (send_request_success_decoding (fun b => if b = "7" then some 7 else none)
      (fun _ => none) { status := 200, headers := [], body := "7" } (by decide)).2 7 (by decide)

/-- C6 counterexample: the claim says a client built without configuring a
retry policy performs exactly one attempt, but `ClientBuilder::default()` —
which `Client::new` uses — installs an exponential-backoff retry policy
with 5 retries, so a default-built client facing a constant-429 server
performs 6 attempts, not 1. -/
theorem default_client_retries_counterexample :
    (Client.execute default_on_request_failure (Client.new { api_key := "orb-key" })
        (fun _ => .ok { status := 429, headers := [], body := "" })).2 = 6
    ∧ (Client.execute default_on_request_failure (Client.new { api_key := "orb-key" })
        (fun _ => .ok { status := 429, headers := [], body := "" })).2 ≠ 1 := by
  decide

/-- C6 (amended): a client built from a builder whose `retry_policy` is
`None` installs no retry middleware and performs exactly one attempt per
logical request, returning the first outcome unchanged for any outcome
(429 and network failure included); the default builder, however, carries
a retry policy, so a policy-free client cannot be obtained through
`ClientBuilder::default()`. -/
theorem no_policy_single_attempt (b : ClientBuilder) (config : ClientConfig)
    (d : ReqwestError → Option Retryable)
    (attempts : Nat → Except ReqwestError Response)
    (hnone : b.retry_policy = none) :
    Client.execute d (b.build config) attempts = (attempts 0, 1) := by
  simp [Client.execute, ClientBuilder.build, hnone]

/-- Witness for `no_policy_single_attempt`: a policy-free builder yields a
client that sends exactly one attempt even when the server answers 429. -/
theorem no_policy_single_attempt_witness :
    Client.execute default_on_request_failure
        (ClientBuilder.build { endpoint := DEFAULT_ENDPOINT, retry_policy := none }
          { api_key := "orb-key" })
        (fun _ => .ok { status := 429, headers := [], body := "" })
      = (.ok { status := 429, headers := [], body := "" }, 1) :=
  no_policy_single_attempt { endpoint := DEFAULT_ENDPOINT, retry_policy := none }
    { api_key := "orb-key" } default_on_request_failure
    (fun _ => .ok { status := 429, headers := [], body := "" }) rfl

/-- C7 (code bug): `ClientBuilder::with_endpoint` and `ClientBuilder::build`
accept a non-hierarchical (cannot-be-a-base) endpoint without any check —
contradicting `build_request`'s own `expect("builder validated URL can be a
base")` — so the client is constructed successfully and the panic surfaces
later, inside `build_request`, on the first request (modelled as `none`);
with the default hierarchical endpoint, appending path segments succeeds. -/
theorem endpoint_validation_bug :
    ((ClientBuilder.default.with_endpoint mailtoEndpoint).build { api_key := "orb-key" }).endpoint
      = mailtoEndpoint
    ∧ Client.build_request
        ((ClientBuilder.default.with_endpoint mailtoEndpoint).build { api_key := "orb-key" })
        "GET" CUSTOMERS_PATH = none
    ∧ Client.build_request (Client.new { api_key := "orb-key" }) "GET" CUSTOMERS_PATH
      = some { method := "GET",
               url := { cannot_be_a_base := false, segments := ["v1", "customers"] },
               queryPairs := [], bearer_token := some "orb-key" } := by
  decide

/-! Helper lemmas about `tryFilterMap`. -/

theorem tryFilterMap_append {α β : Type} (f : α → Except Error (Option β))
    (l₁ l₂ : List (Except Error α)) :
    tryFilterMap f (l₁ ++ l₂) = tryFilterMap f l₁ ++ tryFilterMap f l₂ := by
  induction l₁ with
  | nil => rfl
  | cons x t ih =>
    match x with
    | .error e => simp [tryFilterMap, ih]
    | .ok a =>
      rw [List.cons_append]
      show tryFilterMap f (.ok a :: (t ++ l₂)) = tryFilterMap f (.ok a :: t) ++ tryFilterMap f l₂
      match h : f a with
      | .ok none => simp [tryFilterMap, h, ih]
      | .ok (some b) => simp [tryFilterMap, h, ih]
      | .error e => simp [tryFilterMap, h, ih]

theorem mem_tryFilterMap_of_mem_error {α β : Type} (f : α → Except Error (Option β))
    (l : List (Except Error α)) (e : Error) (h : .error e ∈ l) :
    .error e ∈ tryFilterMap f l := by
  induction l with
  | nil => simp at h
  | cons x t ih =>
    match x with
    | .error e₀ =>
      rcases List.mem_cons.mp h with h₀ | h₀
      · rw [← h₀]
        simp [tryFilterMap]
      · simp [tryFilterMap, ih h₀]
    | .ok a =>
      have ht : Except.error e ∈ t := by
        rcases List.mem_cons.mp h with h₀ | h₀
        · exact absurd h₀ (by simp)
        · exact h₀
      show Except.error e ∈ tryFilterMap f (.ok a :: t)
      match hf : f a with
      | .ok none => simpa [tryFilterMap, hf] using ih ht
      | .ok (some b) => simp [tryFilterMap, hf, ih ht]
      | .error e₁ => simp [tryFilterMap, hf, ih ht]

theorem mem_customers_tryFilterMap (l : List (Except Error CustomerResponse))
    (c : Customer) (h : .ok c ∈ tryFilterMap customersFilterStep l) :
    .ok (CustomerResponse.Normal c) ∈ l := by
  induction l with
  | nil => simp [tryFilterMap] at h
  | cons x t ih =>
    match x with
    | .error e₀ =>
      rw [show tryFilterMap customersFilterStep (.error e₀ :: t)
          = .error e₀ :: tryFilterMap customersFilterStep t from rfl] at h
      rcases List.mem_cons.mp h with h₀ | h₀
      · exact absurd h₀ (by simp)
      · exact List.mem_cons_of_mem _ (ih h₀)
    | .ok a =>
      match a with
      | .Normal c₀ =>
        rw [show tryFilterMap customersFilterStep (.ok (.Normal c₀) :: t)
            = .ok c₀ :: tryFilterMap customersFilterStep t from rfl] at h
        rcases List.mem_cons.mp h with h₀ | h₀
        · rw [Except.ok.injEq] at h₀
          rw [h₀]
          exact List.mem_cons_self _ _
        · exact List.mem_cons_of_mem _ (ih h₀)
      | .Deleted id₀ true =>
        rw [show tryFilterMap customersFilterStep (.ok (.Deleted id₀ true) :: t)
            = tryFilterMap customersFilterStep t from rfl] at h
        exact List.mem_cons_of_mem _ (ih h)
      | .Deleted id₀ false =>
        rw [show tryFilterMap customersFilterStep (.ok (.Deleted id₀ false) :: t)
            = .error (.UnexpectedResponse
                ("customer " ++ id₀ ++ " used deleted response shape but deleted field was `false`"))
              :: tryFilterMap customersFilterStep t from rfl] at h
        rcases List.mem_cons.mp h with h₀ | h₀
        · exact absurd h₀ (by simp)
        · exact List.mem_cons_of_mem _ (ih h₀)

theorem customers_tryFilterMap_errors (l : List (Except Error CustomerResponse))
    (e : Error) (h : .error e ∈ tryFilterMap customersFilterStep l) :
    .error e ∈ l ∨ ∃ id, e = .UnexpectedResponse
      ("customer " ++ id ++ " used deleted response shape but deleted field was `false`") := by
  induction l with
  | nil => simp [tryFilterMap] at h
  | cons x t ih =>
    match x with
    | .error e₀ =>
      rw [show tryFilterMap customersFilterStep (.error e₀ :: t)
          = .error e₀ :: tryFilterMap customersFilterStep t from rfl] at h
      rcases List.mem_cons.mp h with h₀ | h₀
      · rw [Except.error.injEq] at h₀
        rw [h₀]
        exact Or.inl (List.mem_cons_self _ _)
      · rcases ih h₀ with hl | hr
        · exact Or.inl (List.mem_cons_of_mem _ hl)
        · exact Or.inr hr
    | .ok a =>
      match a with
      | .Normal c₀ =>
        rw [show tryFilterMap customersFilterStep (.ok (.Normal c₀) :: t)
            = .ok c₀ :: tryFilterMap customersFilterStep t from rfl] at h
        rcases List.mem_cons.mp h with h₀ | h₀
        · exact absurd h₀ (by simp)
        · rcases ih h₀ with hl | hr
          · exact Or.inl (List.mem_cons_of_mem _ hl)
          · exact Or.inr hr
      | .Deleted id₀ true =>
        rw [show tryFilterMap customersFilterStep (.ok (.Deleted id₀ true) :: t)
            = tryFilterMap customersFilterStep t from rfl] at h
        rcases ih h with hl | hr
        · exact Or.inl (List.mem_cons_of_mem _ hl)
        · exact Or.inr hr
      | .Deleted id₀ false =>
        rw [show tryFilterMap customersFilterStep (.ok (.Deleted id₀ false) :: t)
            = .error (.UnexpectedResponse
                ("customer " ++ id₀ ++ " used deleted response shape but deleted field was `false`"))
              :: tryFilterMap customersFilterStep t from rfl] at h
        rcases List.mem_cons.mp h with h₀ | h₀
        · rw [Except.error.injEq] at h₀
          exact Or.inr ⟨id₀, h₀⟩
        · rcases ih h₀ with hl | hr
          · exact Or.inl (List.mem_cons_of_mem _ hl)
          · exact Or.inr hr

/-- C10: an element of a customer (or subscription) list response that
decodes to the deleted-tombstone shape with `deleted: true` is silently
omitted by the `try_filter_map` stage of `list_customers` /
`list_subscriptions` — neither yielded as an item nor reported as an error
— and the stream continues with the subsequent elements; every yielded
item comes from a normally-shaped record. -/
theorem tombstones_silently_filtered
    (xs ys l : List (Except Error CustomerResponse)) (id : String)
    (sxs sys : List (Except Error (Subscription CustomerResponse)))
    (s : Subscription CustomerResponse) (sid : String)
    (hs : s.customer = .Deleted sid true) :
    tryFilterMap customersFilterStep (xs ++ .ok (.Deleted id true) :: ys)
      = tryFilterMap customersFilterStep xs ++ tryFilterMap customersFilterStep ys
    ∧ (∀ c : Customer, .ok c ∈ tryFilterMap customersFilterStep l
        → .ok (CustomerResponse.Normal c) ∈ l)
    ∧ tryFilterMap subscriptionsFilterStep (sxs ++ .ok s :: sys)
      = tryFilterMap subscriptionsFilterStep sxs ++ tryFilterMap subscriptionsFilterStep sys := by
  refine ⟨?_, ?_, ?_⟩
  · rw [tryFilterMap_append]
    rfl
  · intro c hc
    exact mem_customers_tryFilterMap l c hc
  · rw [tryFilterMap_append]
    congr 1
    show tryFilterMap subscriptionsFilterStep (.ok s :: sys)
      = tryFilterMap subscriptionsFilterStep sys
    simp [tryFilterMap, subscriptionsFilterStep, hs]

/-- Witness for `tombstones_silently_filtered`: a concrete run in which a
`deleted: true` customer tombstone and a subscription with a
`deleted: true` tombstone customer are dropped while surrounding normal
records survive. -/
theorem tombstones_silently_filtered_witness :
    tryFilterMap customersFilterStep
        [.ok (.Normal testCustomer), .ok (.Deleted "cus_9" true), .ok (.Normal testCustomer)]
      = [.ok testCustomer, .ok testCustomer]
    ∧ tryFilterMap subscriptionsFilterStep [.ok testTombstoneSubscription] = [] := by
  have h := tombstones_silently_filtered [.ok (.Normal testCustomer)]
    [.ok (.Normal testCustomer)] [] "cus_9" [] [] testTombstoneSubscription "cus_2" rfl
  exact ⟨h.1, h.2.2⟩

/-- C8 counterexample: the claim says every public operation returns
success or one of exactly two error kinds (transport / API), but
`list_customers` on a page containing a tombstone with `deleted: false`
returns `Error::UnexpectedResponse`, a third variant that is neither. -/
theorem third_error_kind_counterexample :
    Client.list_customers (Client.new { api_key := "orb-key" }) ListParams.DEFAULT
        (fun _ => .ok { data := [.Deleted "c" false],
                        pagination_metadata := { next_cursor := none } }) 1
      = some [.error (.UnexpectedResponse
          "customer c used deleted response shape but deleted field was `false`")]
    ∧ Error.isTransportOrApi
        (.UnexpectedResponse
          "customer c used deleted response shape but deleted field was `false`") = false :=
  ⟨rfl, rfl⟩

/-- C8 (amended): every public operation returns a result that is
explicitly success or a typed error, and no error is swallowed: the
request/response pipeline (`send_request`) produces only the two error
kinds declared in `src/error.rs` (`Transport`, `Api`); underlying stream
errors pass through the `try_filter_map` stage of `list_customers`
unchanged; and every error that stage emits is either such an underlying
error or the third variant, `Error::UnexpectedResponse`, produced exactly
for a `deleted: false` tombstone. -/
theorem error_kinds_amended {T : Type}
    (l : List (Except Error CustomerResponse))
    (decodeBody : String → Option T) (decodeErrorResponse : String → Option ErrorResponse)
    (sendResult : Except ReqwestError Response) :
    (∀ e : Error, .error e ∈ l → .error e ∈ tryFilterMap customersFilterStep l)
    ∧ (∀ e : Error, .error e ∈ tryFilterMap customersFilterStep l →
        .error e ∈ l ∨ ∃ id, e = .UnexpectedResponse
          ("customer " ++ id ++ " used deleted response shape but deleted field was `false`"))
    ∧ (∀ e : Error, Client.send_request decodeBody decodeErrorResponse sendResult = .error e →
        Error.isTransportOrApi e = true) := by
  refine ⟨?_, ?_, ?_⟩
  · intro e he
    exact mem_tryFilterMap_of_mem_error customersFilterStep l e he
  · intro e he
    exact customers_tryFilterMap_errors l e he
  · intro e he
    match sendResult with
    | .error e₀ =>
      rw [show Client.send_request decodeBody decodeErrorResponse (.error e₀)
          = .error (.Transport e₀) from rfl] at he
      rw [Except.error.injEq] at he
      rw [← he]
      rfl
    | .ok res =>
      rw [Client.send_request] at he
      by_cases hsucc : StatusCode.is_success res.status
      · rw [if_pos hsucc] at he
        match hdec : decodeBody res.body with
        | some v => rw [hdec] at he; exact absurd he (by simp)
        | none =>
          rw [hdec] at he
          rw [Except.error.injEq] at he
          rw [← he]
          rfl
      · rw [if_neg hsucc] at he
        match hdec : decodeErrorResponse res.body with
        | some e₁ =>
          simp only [hdec, Except.error.injEq] at he
          rw [← he]
          rfl
        | none =>
          simp only [hdec, Except.error.injEq] at he
          rw [← he]
          rfl

/-- Witness for `error_kinds_amended`: an underlying API error passes
through the customers filter unswallowed, and a transport failure from
`send_request` is one of the two declared kinds. -/
theorem error_kinds_amended_witness :
    Except.error (Error.Api { status_code := 404, title := "Not Found",
                              detail := none, validation_errors := [] })
      ∈ tryFilterMap customersFilterStep
          [.error (.Api { status_code := 404, title := "Not Found",
                          detail := none, validation_errors := [] })]
    ∧ Error.isTransportOrApi (.Transport (.request "connection reset")) = true := by
  constructor
  · exact (error_kinds_amended
      [.error (.Api { status_code := 404, title := "Not Found",
                      detail := none, validation_errors := [] })]
      (fun _ => (none : Option Nat)) (fun _ => none)
      (.error (.request "connection reset"))).1 _ (by simp)
  · exact (error_kinds_amended ([] : List (Except Error CustomerResponse))
      (fun _ => (none : Option Nat)) (fun _ => none)
      (.error (.request "connection reset"))).2.2 _ rfl

/-- C4: a page response with an absent `next_cursor` terminates the
sequence right after that page's `data` elements, whether or not `data`
was empty; a page response with a present `next_cursor` leads to exactly
one more fetch carrying that cursor as a query parameter. -/
theorem cursor_termination {T : Type} (fetch : RequestBuilder → Except Error (Paginated T))
    (req : RequestBuilder) (fuel : Nat) (cursor : Option String) (page : Paginated T)
    (hfetch : fetch (currentRequest req cursor) = .ok page) :
    (page.pagination_metadata.next_cursor = none →
      streamPaginatedGo fetch req (fuel + 1) cursor
        = (page.data.map .ok, [currentRequest req cursor]))
    ∧ (∀ c, page.pagination_metadata.next_cursor = some c →
      streamPaginatedGo fetch req (fuel + 2) cursor
        = (page.data.map .ok ++ (streamPaginatedGo fetch req (fuel + 1) (some c)).1,
           currentRequest req cursor :: (streamPaginatedGo fetch req (fuel + 1) (some c)).2)
      ∧ (streamPaginatedGo fetch req (fuel + 1) (some c)).2.head?
          = some (req.query [("cursor", c)])) := by
  constructor
  · intro hnone
    simp only [streamPaginatedGo, hfetch, hnone]
  · intro c hsome
    constructor
    · simp only [streamPaginatedGo, hfetch, hsome]
    · match hres : fetch (currentRequest req (some c)) with
      | .error e =>
        have hres2 : fetch (req.query [("cursor", c)]) = .error e := hres
        simp [streamPaginatedGo, currentRequest, hres2]
      | .ok res =>
        have hres2 : fetch (req.query [("cursor", c)]) = .ok res := hres
        match hnext : res.pagination_metadata.next_cursor with
        | none => simp [streamPaginatedGo, currentRequest, hres2, hnext]
        | some c₂ => simp [streamPaginatedGo, currentRequest, hres2, hnext]

/-- Witness for `cursor_termination`: a server whose single page has no
`next_cursor` ends the stream after that page's two items, with one fetch. -/
theorem cursor_termination_witness :
    streamPaginatedGo
        (fun _ => .ok { data := [1, 2], pagination_metadata := { next_cursor := none } })
        testBaseRequest 1 none
      = ([.ok 1, .ok 2], [testBaseRequest]) :=
  (cursor_termination
    (fun _ => .ok { data := [1, 2], pagination_metadata := { next_cursor := none } })
    testBaseRequest 0 none
    { data := [1, 2], pagination_metadata := { next_cursor := none } } rfl).1 rfl

theorem pageRequest_range_step (base : RequestBuilder) (i k : Nat) :
    (List.range (k + 1)).map (fun j => pageRequest base (i + j))
      = pageRequest base i :: (List.range k).map (fun j => pageRequest base (i + 1 + j)) := by
  simp only [List.range_succ_eq_map, List.map_cons, List.map_map, Nat.add_zero]
  refine congrArg (List.cons (pageRequest base i)) ?_
  apply List.map_congr_left
  intro j hj
  simp only [Function.comp_apply]
  congr 1
  omega

theorem go_failing {T : Type} (pages : List (List T)) (e : Error)
    (req₀ : RequestBuilder) (s : String)
    (hcur : req₀.queryPairs.lookup "cursor" = none) :
    ∀ fuel i, i ≤ pages.length → pages.length - i + 1 ≤ fuel →
      streamPaginatedGo (failingServer pages e) (req₀.query [("limit", s)]) fuel (pageCursorOpt i)
        = (((pages.drop i).flatten).map .ok ++ [.error e],
           (List.range (pages.length - i + 1)).map
             (fun j => pageRequest (req₀.query [("limit", s)]) (i + j))) := by
  intro fuel
  induction fuel with
  | zero =>
    intro i hi hfuel
    omega
  | succ fuel ih =>
    intro i hi hfuel
    have hidx : cursorIndex (pageRequest (req₀.query [("limit", s)]) i) = i :=
      cursorIndex_pageRequest req₀ s i hcur
    by_cases hlt : i < pages.length
    · have hserver : failingServer pages e (pageRequest (req₀.query [("limit", s)]) i)
          = .ok { data := pages[i],
                  pagination_metadata := { next_cursor := some (pageCursor (i + 1)) } } := by
        simp only [failingServer, hidx, List.getElem?_eq_getElem hlt]
      have hrec : streamPaginatedGo (failingServer pages e) (req₀.query [("limit", s)])
          fuel (some (pageCursor (i + 1)))
          = (((pages.drop (i + 1)).flatten).map .ok ++ [.error e],
             (List.range (pages.length - (i + 1) + 1)).map
               (fun j => pageRequest (req₀.query [("limit", s)]) (i + 1 + j))) :=
        ih (i + 1) hlt (by omega)
      simp only [streamPaginatedGo, currentRequest_pageCursorOpt, hserver, hrec,
        Prod.mk.injEq]
      constructor
      · rw [List.drop_eq_getElem_cons hlt, List.flatten_cons, List.map_append,
          List.append_assoc]
      · rw [show pages.length - i + 1 = (pages.length - (i + 1) + 1) + 1 by omega,
          pageRequest_range_step (req₀.query [("limit", s)]) i
            (pages.length - (i + 1) + 1)]
    · have hieq : i = pages.length := by omega
      have hserver : failingServer pages e (pageRequest (req₀.query [("limit", s)]) i)
          = .error e := by
        simp only [failingServer, hidx, List.getElem?_eq_none (by omega : pages.length ≤ i)]
      simp only [streamPaginatedGo, currentRequest_pageCursorOpt, hserver,
        Prod.mk.injEq]
      constructor
      · rw [List.drop_eq_nil_of_le (by omega), List.flatten_nil, List.map_nil,
          List.nil_append]
      · rw [show pages.length - i + 1 = 1 by omega]
        rw [show List.range 1 = [0] from rfl, List.map_singleton, Nat.add_zero]

/-- C5: when the fetch of page `k` of a paginated sequence fails, the
sequence yields all items of the `k - 1` preceding pages unchanged and in
order, then yields that error as the terminal element, and issues exactly
`k` page fetches (none after the failure); moreover, for any server and
any fuel, the yielded sequence is a list of successes optionally followed
by a single terminal error, so items yielded before a failure are never
retracted. -/
theorem error_aborts_sequence {T : Type} (pages : List (List T)) (e : Error)
    (params : ListParams) (req₀ : RequestBuilder) (fuel : Nat)
    (hcur : req₀.queryPairs.lookup "cursor" = none)
    (hfuel : pages.length + 1 ≤ fuel) :
    (stream_paginated_request (failingServer pages e) params req₀ fuel).1
      = (pages.flatten).map .ok ++ [.error e]
    ∧ (stream_paginated_request (failingServer pages e) params req₀ fuel).2.length
      = pages.length + 1
    ∧ ∀ (fetch : RequestBuilder → Except Error (Paginated T)) (req : RequestBuilder)
        (fuel₂ : Nat) (cursor : Option String),
        (∃ oks : List T, (streamPaginatedGo fetch req fuel₂ cursor).1 = oks.map .ok)
        ∨ (∃ oks : List T, ∃ e₂ : Error,
            (streamPaginatedGo fetch req fuel₂ cursor).1 = oks.map .ok ++ [.error e₂]) := by
  have hmain := go_failing pages e req₀ (toString params.page_size) hcur fuel 0
    (by omega) (by omega)
  refine ⟨?_, ?_, ?_⟩
  · show (streamPaginatedGo (failingServer pages e)
      (req₀.query [("limit", toString params.page_size)]) fuel (pageCursorOpt 0)).1
      = (pages.flatten).map .ok ++ [.error e]
    rw [hmain]
    simp
  · show (streamPaginatedGo (failingServer pages e)
      (req₀.query [("limit", toString params.page_size)]) fuel (pageCursorOpt 0)).2.length
      = pages.length + 1
    rw [hmain]
    simp
  · intro fetch req fuel₂
    induction fuel₂ with
    | zero =>
      intro cursor
      exact Or.inl ⟨[], rfl⟩
    | succ fuel₂ ih =>
      intro cursor
      match hres : fetch (currentRequest req cursor) with
      | .error e₂ =>
        refine Or.inr ⟨[], e₂, ?_⟩
        simp only [streamPaginatedGo, hres]
        rfl
      | .ok res =>
        match hnext : res.pagination_metadata.next_cursor with
        | none =>
          refine Or.inl ⟨res.data, ?_⟩
          simp only [streamPaginatedGo, hres, hnext]
        | some c =>
          rcases ih (some c) with ⟨oks, hoks⟩ | ⟨oks, e₂, hoks⟩
          · refine Or.inl ⟨res.data ++ oks, ?_⟩
            simp only [streamPaginatedGo, hres, hnext, hoks, List.map_append]
          · refine Or.inr ⟨res.data ++ oks, e₂, ?_⟩
            simp only [streamPaginatedGo, hres, hnext, hoks, List.map_append,
              List.append_assoc]

/-- Witness for `error_aborts_sequence`: two good pages `[1, 2]` and `[3]`
followed by a failing fetch yield the three items, then the API error, in
exactly three fetches. -/
theorem error_aborts_sequence_witness :
    (stream_paginated_request
        (failingServer [[1, 2], [3]]
          (.Api { status_code := 500, title := "internal", detail := none,
                  validation_errors := [] }))
        { page_size := 2 } testBaseRequest 5).1
      = [.ok 1, .ok 2, .ok 3,
         .error (.Api { status_code := 500, title := "internal", detail := none,
                        validation_errors := [] })]
    ∧ (stream_paginated_request
        (failingServer [[1, 2], [3]]
          (.Api { status_code := 500, title := "internal", detail := none,
                  validation_errors := [] }))
        { page_size := 2 } testBaseRequest 5).2.length = 3 := by
  have h := error_aborts_sequence [[1, 2], [3]]
    (.Api { status_code := 500, title := "internal", detail := none,
            validation_errors := [] })
    { page_size := 2 } testBaseRequest 5 rfl (by decide)
  exact ⟨h.1, h.2.1⟩

theorem go_canonical {T : Type} (items : List T) (P : Nat) (req₀ : RequestBuilder)
    (hP : 0 < P) (hcur : req₀.queryPairs.lookup "cursor" = none) :
    ∀ fuel i, P * i < items.length → (items.length + P - 1) / P - i ≤ fuel →
      streamPaginatedGo (canonicalServer items P) (req₀.query [("limit", toString P)])
          fuel (pageCursorOpt i)
        = ((items.drop (P * i)).map .ok,
           (List.range ((items.length + P - 1) / P - i)).map
             (fun j => pageRequest (req₀.query [("limit", toString P)]) (i + j))) := by
  intro fuel
  induction fuel with
  | zero =>
    intro i hi hfuel
    have hnp := numPages_pos P items.length i hP hi
    omega
  | succ fuel ih =>
    intro i hi hfuel
    have hidx : cursorIndex (pageRequest (req₀.query [("limit", toString P)]) i) = i :=
      cursorIndex_pageRequest req₀ (toString P) i hcur
    have hnp := numPages_pos P items.length i hP hi
    by_cases hmore : P * (i + 1) < items.length
    · have hserver : canonicalServer items P
          (pageRequest (req₀.query [("limit", toString P)]) i)
          = .ok { data := (items.drop (P * i)).take P,
                  pagination_metadata := { next_cursor := some (pageCursor (i + 1)) } } := by
        simp only [canonicalServer, hidx, if_pos hmore]
      have hnp2 := numPages_pos P items.length (i + 1) hP hmore
      have hrec : streamPaginatedGo (canonicalServer items P)
          (req₀.query [("limit", toString P)]) fuel (some (pageCursor (i + 1)))
          = ((items.drop (P * (i + 1))).map .ok,
             (List.range ((items.length + P - 1) / P - (i + 1))).map
               (fun j => pageRequest (req₀.query [("limit", toString P)]) (i + 1 + j))) :=
        ih (i + 1) hmore (by omega)
      simp only [streamPaginatedGo, currentRequest_pageCursorOpt, hserver, hrec,
        Prod.mk.injEq]
      constructor
      · rw [← List.map_append]
        congr 1
        rw [show P * (i + 1) = P * i + P from Nat.mul_succ P i]
        exact List.drop_take_append_drop items (P * i) P
      · rw [show (items.length + P - 1) / P - i
            = ((items.length + P - 1) / P - (i + 1)) + 1 by omega,
          pageRequest_range_step (req₀.query [("limit", toString P)]) i
            ((items.length + P - 1) / P - (i + 1))]
    · have hserver : canonicalServer items P
          (pageRequest (req₀.query [("limit", toString P)]) i)
          = .ok { data := (items.drop (P * i)).take P,
                  pagination_metadata := { next_cursor := none } } := by
        simp only [canonicalServer, hidx, if_neg hmore]
      simp only [streamPaginatedGo, currentRequest_pageCursorOpt, hserver,
        Prod.mk.injEq]
      constructor
      · congr 1
        apply List.take_of_length_le
        rw [List.length_drop]
        have hms : P * (i + 1) = P * i + P := Nat.mul_succ P i
        omega
      · have hlast : (items.length + P - 1) / P = i + 1 :=
          numPages_last P items.length i hP hi (by omega)
        rw [hlast, show i + 1 - i = 1 by omega]
        rw [show List.range 1 = [0] from rfl, List.map_singleton, Nat.add_zero]

/-- C1 counterexample: the claim demands exactly `ceil(N / P)` page
fetches for every `N`, but for a server holding zero items the engine
still issues its initial fetch (which returns the empty terminal page), so
one fetch occurs while `ceil(0 / 20) = 0`. -/
theorem pagination_empty_counterexample :
    (stream_paginated_request (canonicalServer ([] : List Nat) 20) ListParams.DEFAULT
        testBaseRequest 1).2.length = 1
    ∧ ((List.length ([] : List Nat)) + 20 - 1) / 20 = 0 :=
  ⟨rfl, rfl⟩

/-- C1 (amended): against a server holding `N` items served in pages of
size `P ≥ 1`, consuming the full sequence yields exactly the `N` items in
server order (each page's `data` in array order, pages in fetch order — no
re-sorting), issues exactly `max 1 (ceil(N / P))` page fetches (one fetch
still occurs when `N = 0`), attaches the `limit` page-size parameter once,
before the first fetch, and attaches the `cursor` parameter exactly on the
fetches after the first. -/
theorem pagination_exhaustion {T : Type} (items : List T) (P : Nat)
    (req₀ : RequestBuilder) (fuel : Nat) (hP : 0 < P)
    (hcur : req₀.queryPairs.lookup "cursor" = none)
    (hfuel : max 1 ((items.length + P - 1) / P) ≤ fuel) :
    (stream_paginated_request (canonicalServer items P) { page_size := P } req₀ fuel).1
      = items.map .ok
    ∧ (stream_paginated_request (canonicalServer items P) { page_size := P } req₀ fuel).2
      = (List.range (max 1 ((items.length + P - 1) / P))).map
          (fun k => pageRequest (req₀.query [("limit", toString P)]) k)
    ∧ (stream_paginated_request (canonicalServer items P) { page_size := P } req₀ fuel).2.length
      = max 1 ((items.length + P - 1) / P) := by
  by_cases hN : items.length = 0
  · have hitems : items = [] := List.length_eq_zero.mp hN
    subst hitems
    have hnum : (List.length ([] : List T) + P - 1) / P = 0 :=
      Nat.div_eq_of_lt (by omega)
    have hmax : max 1 ((List.length ([] : List T) + P - 1) / P) = 1 := by omega
    obtain ⟨f, rfl⟩ : ∃ f, fuel = f + 1 := ⟨fuel - 1, by omega⟩
    have hidx : cursorIndex (req₀.query [("limit", toString P)]) = 0 := by
      simp only [cursorIndex, lookup_cursor_limit req₀ _ hcur]
    have hserver : canonicalServer ([] : List T) P (req₀.query [("limit", toString P)])
        = .ok { data := [], pagination_metadata := { next_cursor := none } } := by
      simp [canonicalServer, hidx]
    have hrun : stream_paginated_request (canonicalServer ([] : List T) P)
        { page_size := P } req₀ (f + 1)
        = (([] : List (Except Error T)), [req₀.query [("limit", toString P)]]) := by
      show streamPaginatedGo (canonicalServer ([] : List T) P)
          (req₀.query [("limit", toString P)]) (f + 1) none = _
      simp [streamPaginatedGo, currentRequest, hserver]
    rw [hrun, hmax]
    refine ⟨rfl, ?_, rfl⟩
    rw [show List.range 1 = [0] from rfl, List.map_singleton]
    rfl
  · have h1 : 0 + 1 ≤ (items.length + P - 1) / P :=
      numPages_pos P items.length 0 hP (by omega)
    have hmax : max 1 ((items.length + P - 1) / P) = (items.length + P - 1) / P := by
      omega
    have hmain := go_canonical items P req₀ hP hcur fuel 0 (by omega) (by omega)
    simp only [Nat.mul_zero, List.drop_zero, Nat.sub_zero, Nat.zero_add, pageCursorOpt]
      at hmain
    have hmain2 : stream_paginated_request (canonicalServer items P)
        { page_size := P } req₀ fuel
        = (items.map .ok,
           (List.range ((items.length + P - 1) / P)).map
             (fun k => pageRequest (req₀.query [("limit", toString P)]) k)) := hmain
    rw [hmain2, hmax]
    refine ⟨rfl, rfl, ?_⟩
    simp

/-- Witness for `pagination_exhaustion`: five items in pages of two are
yielded in order across exactly three fetches. -/
theorem pagination_exhaustion_witness :
    (stream_paginated_request (canonicalServer [10, 20, 30, 40, 50] 2) { page_size := 2 }
        testBaseRequest 3).1
      = [.ok 10, .ok 20, .ok 30, .ok 40, .ok 50]
    ∧ (stream_paginated_request (canonicalServer [10, 20, 30, 40, 50] 2) { page_size := 2 }
        testBaseRequest 3).2.length = 3 := by
  have h := pagination_exhaustion [10, 20, 30, 40, 50] 2 testBaseRequest 3
    (by decide) rfl (by decide)
  exact ⟨h.1, h.2.2⟩

end Orb
